import Mathlib

/-!
Shallow embedding of the Lyftoff repository.

The repository has three Python files:
* `generate_flyers.py` — synthetic traveler generation (embedded below with the
  random draws made explicit inputs);
* `visualization.py` — a tkinter animation whose node-position interpolation is
  embedded as guarded (Option-valued) arithmetic;
* `time_to_leave_algorithm.py` — this file consists entirely of design
  comments: the backward-scheduling pipeline it documents has no executable
  implementation in the repository.  The pipeline definitions below are
  therefore modelled from the specification's words (each such definition says
  so in its doc comment).

Times and durations are integer numbers of minutes (e.g. 17:45 is 1065).
-/

/-! ### generate_flyers.py -/

/-- Embeds `coinflip(pSuccess)` from `generate_flyers.py`: the random draw
`random.randint(0, 100)` (an integer from the inclusive range 0..100) is made
an explicit input, and the result is `res < pSuccess`. -/
def coinflip (pSuccess draw : ℕ) : Bool :=
  decide (draw < pSuccess)

/-- One flyer record as built by `generateFlyer`: exactly the keys
`id`, `flightNumber`, `hasBaggage`, `needAssistance`, `lyftPreference`
(the file-header schema's `extraTime`, `pickupTime`, `isAtPickup` are never
written by the code). -/
structure Flyer where
  id : ℕ
  flightNumber : ℕ
  hasBaggage : Bool
  needAssistance : Bool
  lyftPreference : ℤ
deriving DecidableEq, Repr

/-- Embeds the expression `1 if coinflip(50) else (2 if coinflip(30) else -1)`
from `generateFlyer`, with the two draws explicit. -/
def mkLyftPreference (d1 d2 : ℕ) : ℤ :=
  if coinflip 50 d1 then 1 else if coinflip 30 d2 then 2 else -1

/-- Embeds the loop of `generateFlyer(numFlyers, flightNumber, pBaggage,
pNeedAssistance)`.  The global mutable `id` counter is threaded as `startId`,
and the stream of random draws is the explicit `draws` function (each flyer
consumes four consecutive draws: baggage, assistance, and the two
lyft-preference coinflips). -/
def generateFlyer (numFlyers : ℕ) (flightNumber pBaggage pNeedAssistance : ℕ)
    (draws : ℕ → ℕ) (startId : ℕ) : List Flyer :=
  match numFlyers with
  | 0 => []
  | n + 1 =>
      { id := startId
        flightNumber := flightNumber
        hasBaggage := coinflip pBaggage (draws 0)
        needAssistance := coinflip pNeedAssistance (draws 1)
        lyftPreference := mkLyftPreference (draws 2) (draws 3) } ::
      generateFlyer n flightNumber pBaggage pNeedAssistance
        (fun k => draws (k + 4)) (startId + 1)

/-! ### visualization.py -/

/-- Python's `int(...)` applied to a rational value: truncation toward zero
(the numerator `Int`-divided by the positive denominator). -/
def pyInt (q : ℚ) : ℤ :=
  q.num / (q.den : ℤ)

/-- Embeds the center computation of `redraw_flyer_node`.  The outer `some`
layer distinguishes the early `return` (node already past pickup, drawn
nowhere: `some none`) from a drawn position `some (some (x, y))`; the value
`none` is the `ZeroDivisionError` branch of
`(time - startTime) / (pickupTime - startTime)`. -/
def redraw_flyer_node_center (time startTime pickupTime : ℚ) :
    Option (Option (ℤ × ℤ)) :=
  if pickupTime < time then some none
  else if pickupTime - startTime = 0 then none
  else
    some (some
      (pyInt ((time - startTime) / (pickupTime - startTime) * 380 + 100),
       pyInt ((time - startTime) / (pickupTime - startTime) * 400 + 100)))

/-- Embeds the center computation of `redraw_lyft_node`.  `pickedUp` is the
node's `"pickedUp"` mark and `canPickUp` stands for the global comparison
`travelersPickedUp > lyftsGone`; as in `redraw_flyer_node_center`, `none` is
the division-by-zero branch of the interpolation. -/
def redraw_lyft_node_center (time startTime pickupTime : ℚ)
    (pickedUp canPickUp : Bool) : Option (Option (ℤ × ℤ)) :=
  if pickupTime < time && !pickedUp && canPickUp then some none
  else if pickedUp then some none
  else if pickupTime - startTime = 0 then none
  else
    some (some
      (pyInt (-(380 * (time - startTime) / (pickupTime - startTime)) + 900),
       pyInt (400 * (time - startTime) / (pickupTime - startTime) + 100)))

/-! ### The time-to-leave pipeline (modelled from the specification)

`time_to_leave_algorithm.py` documents the algorithm but implements nothing,
so every definition in this section is modelled from the specification. -/

/-- Modelled from the spec: a `HistoricalWaitRecord` for the security-wait or
travel-time tables — a time-of-day bucket, a mean duration, and an optional
standard deviation. -/
structure HistoricalWaitRecord where
  time : ℤ
  mean : ℤ
  stdev : Option ℤ
deriving DecidableEq, Repr

/-- Modelled from the spec: a check-in/bag-drop historical record, holding the
check-in duration and the bag-drop duration, each with its own mean and
optional standard deviation. -/
structure CheckinRecord where
  time : ℤ
  checkinMean : ℤ
  checkinStdev : Option ℤ
  bagMean : ℤ
  bagStdev : Option ℤ
deriving DecidableEq, Repr

/-- Modelled from the spec: a `StageResult` — the resolved instant, the
duration used, and whether the full variability margin was applied
(`marginApplied = false` is the degraded-confidence signal). -/
structure StageResult where
  instant : ℤ
  durationUsed : ℤ
  marginApplied : Bool
deriving DecidableEq, Repr

/-- Modelled from the spec: a `TravelerProfile`.  Terminal/gate are resolved
to their walk durations (worst-case values substituted upstream when
unknown). -/
structure TravelerProfile where
  boardingTime : ℤ
  secToTerminalWalk : ℤ
  terminalToGateWalk : ℤ
  extraTime : ℤ
  hasBaggage : Bool
  needsAssistance : Bool
deriving DecidableEq, Repr

/-- Modelled from the spec: one day's historical snapshot, pre-filtered by
day-of-week (the estimators below are universally quantified over the record
lists, hence over every day-of-week). -/
structure Snapshot where
  security : List HistoricalWaitRecord
  checkin : List CheckinRecord
  travel : List HistoricalWaitRecord
deriving DecidableEq, Repr

/-- Modelled from the spec: the aggregator configuration — the explicit
buffer-policy flag (`subtractBuffer = false` is the boarding-grace-period
policy), the fixed 5–15-minute safety buffer, and the fixed
mobility-assistance padding. -/
structure AggregatorConfig where
  subtractBuffer : Bool
  bufferMinutes : ℤ
  assistancePadding : ℤ
deriving DecidableEq, Repr

/-- Modelled from the spec: the final `ScheduleRecommendation` — the
recommended departure instant, the ordered stage trace, and the propagated
degraded-confidence flag. -/
structure ScheduleRecommendation where
  departure : ℤ
  trace : List StageResult
  degraded : Bool
deriving DecidableEq, Repr

/-- Modelled from the spec: the stage identifiers used in the structured
`Infeasible` error. -/
inductive Stage where
  | security
  | checkin
  | travel
deriving DecidableEq, Repr

/-- The latest qualifying entry: the element of `recs` maximizing `key` among
those satisfying `q` (the shared backward-search core of the three
estimators). -/
def latest {α : Type} (key : α → ℤ) (q : α → Bool) (recs : List α) : Option α :=
  (recs.filter q).argmax key

/-- Modelled from the spec: the Stage Duration Resolver's fixed duration
`X` = security-to-terminal walk + terminal-to-gate walk + desired extra
time. -/
def stageDurationX (p : TravelerProfile) : ℤ :=
  p.secToTerminalWalk + p.terminalToGateWalk + p.extraTime

/-- Modelled from the spec: the security-completion deadline
`T` = boarding time − `X`. -/
def securityDeadline (p : TravelerProfile) : ℤ :=
  p.boardingTime - stageDurationX p

/-- Modelled from the spec: a security-wait record qualifies for deadline `d`
when `U + mean_wait(U) + stdev_wait(U) ≤ d`, the stdev term omitted when the
record carries none. -/
def qualSec (d : ℤ) (r : HistoricalWaitRecord) : Bool :=
  decide (r.time + r.mean + r.stdev.getD 0 ≤ d)

/-- Modelled from the spec: the Security Wait Estimator — the latest
qualifying record time `U`, as a `StageResult` whose degraded-confidence flag
records whether the chosen record carried a stdev; `none` is `Infeasible`. -/
def securityEstimate (d : ℤ) (recs : List HistoricalWaitRecord) :
    Option StageResult :=
  (latest (·.time) (qualSec d) recs).map
    (fun r => ⟨r.time, r.mean, r.stdev.isSome⟩)

/-- Modelled from the spec: the check-in duration used — check-in mean plus
bag-drop mean with baggage, check-in mean alone without. -/
def checkinDuration (bag : Bool) (r : CheckinRecord) : ℤ :=
  if bag then r.checkinMean + r.bagMean else r.checkinMean

/-- Modelled from the spec: the variance of the margin — with baggage the
variances add (independence), `stdev_checkin² + stdev_bagdrop²`; without
baggage only the check-in variance. -/
def checkinVariance (bag : Bool) (r : CheckinRecord) : ℤ :=
  if bag then (r.checkinStdev.getD 0) ^ 2 + (r.bagStdev.getD 0) ^ 2
  else (r.checkinStdev.getD 0) ^ 2

/-- Modelled from the spec: whether the full margin was available (every
needed stdev present). -/
def checkinMarginFull (bag : Bool) (r : CheckinRecord) : Bool :=
  if bag then r.checkinStdev.isSome && r.bagStdev.isSome
  else r.checkinStdev.isSome

/-- Modelled from the spec: a check-in record qualifies for deadline `U` when
`V + duration + √variance ≤ U`; the square root is expressed in the
equivalent squared form so the predicate stays integer-valued and decidable
(the equivalence with `Real.sqrt` is proved below). -/
def qualCheckin (U : ℤ) (bag : Bool) (r : CheckinRecord) : Bool :=
  decide (r.time + checkinDuration bag r ≤ U ∧
    checkinVariance bag r ≤ (U - r.time - checkinDuration bag r) ^ 2)

/-- Modelled from the spec: the Check-in/Bag-Drop Estimator — the latest
qualifying airport-arrival time `V`; `none` is `Infeasible`. -/
def checkinEstimate (U : ℤ) (bag : Bool) (recs : List CheckinRecord) :
    Option StageResult :=
  (latest (·.time) (qualCheckin U bag) recs).map
    (fun r => ⟨r.time, checkinDuration bag r, checkinMarginFull bag r⟩)

/-- Modelled from the spec: a candidate departure record qualifies for the
airport-arrival deadline `V` when it is not before `now` (departures in the
past are impossible) and `W + travel_time(W) + stdev(W) ≤ V`. -/
def qualTravel (V now : ℤ) (r : HistoricalWaitRecord) : Bool :=
  decide (now ≤ r.time ∧ r.time + r.mean + r.stdev.getD 0 ≤ V)

/-- Modelled from the spec: the Travel-Time Estimator — the latest qualifying
origin-departure time `W` against the deadline `V`; `none` is `Infeasible`
(in particular when even immediate departure cannot satisfy `V`). -/
def travelEstimate (V now : ℤ) (recs : List HistoricalWaitRecord) :
    Option StageResult :=
  (latest (·.time) (qualTravel V now) recs).map
    (fun r => ⟨r.time, r.mean, r.stdev.isSome⟩)

/-- Modelled from the spec: the Departure-Time Aggregator — subtract the
mobility-assistance padding exactly when the flag is set, then subtract the
fixed safety buffer under the subtract-buffer policy (skip it under the
grace-period policy). -/
def aggregate (W : ℤ) (needsAssistance : Bool) (cfg : AggregatorConfig) : ℤ :=
  (W - (if needsAssistance then cfg.assistancePadding else 0)) -
    (if cfg.subtractBuffer then cfg.bufferMinutes else 0)

/-- Modelled from the spec: the full backward-chained pipeline
`T → U → V → W → aggregate`, each stage's output becoming the next stage's
deadline; any stage failure aborts the chain with a structured error naming
the failing stage. -/
def pipeline (p : TravelerProfile) (snap : Snapshot) (now : ℤ)
    (cfg : AggregatorConfig) : Except Stage ScheduleRecommendation :=
  match securityEstimate (securityDeadline p) snap.security with
  | none => .error .security
  | some rU =>
      match checkinEstimate rU.instant p.hasBaggage snap.checkin with
      | none => .error .checkin
      | some rV =>
          match travelEstimate rV.instant now snap.travel with
          | none => .error .travel
          | some rW =>
              .ok { departure := aggregate rW.instant p.needsAssistance cfg
                    trace := [rU, rV, rW]
                    degraded := !(rU.marginApplied && rV.marginApplied &&
                      rW.marginApplied) }

/-! ### Properties of the backward search -/

/-- A successful `latest` search returns a member of the list that satisfies
the predicate. -/
theorem latest_mem_qual {α : Type} {key : α → ℤ} {q : α → Bool}
    {recs : List α} {r : α} (h : latest key q recs = some r) :
    r ∈ recs ∧ q r = true := by
  have hm : r ∈ recs.filter q := List.argmax_mem h
  exact ⟨(List.mem_filter.mp hm).1, (List.mem_filter.mp hm).2⟩

/-- The record returned by `latest` maximizes the key among all qualifying
members. -/
theorem latest_is_max {α : Type} {key : α → ℤ} {q : α → Bool}
    {recs : List α} {r : α} (h : latest key q recs = some r) :
    ∀ x ∈ recs, q x = true → key x ≤ key r := by
  intro x hx hq
  exact List.le_of_mem_argmax (List.mem_filter.mpr ⟨hx, hq⟩) h

/-- The `latest` search fails exactly when no member qualifies. -/
theorem latest_eq_none {α : Type} {key : α → ℤ} {q : α → Bool}
    {recs : List α} :
    latest key q recs = none ↔ ∀ x ∈ recs, q x = false := by
  unfold latest
  rw [List.argmax_eq_none, List.filter_eq_nil_iff]
  constructor
  · intro h x hx
    simpa using h x hx
  · intro h x hx
    simp [h x hx]

/-- Weakening the qualification predicate can only move the `latest` result
later: any result under `q` is dominated by the result under a weaker
`q'`. -/
theorem latest_mono {α : Type} {key : α → ℤ} {q q' : α → Bool}
    {recs : List α} {r r' : α}
    (himp : ∀ x ∈ recs, q x = true → q' x = true)
    (h : latest key q recs = some r) (h' : latest key q' recs = some r') :
    key r ≤ key r' := by
  obtain ⟨hmem, hq⟩ := latest_mem_qual h
  exact latest_is_max h' r hmem (himp r hmem hq)

/-! ### Claim theorems: generate_flyers.py and visualization.py -/

/-- Each `lyftPreference` expression evaluates to −1, 1, or 2. -/
theorem mkLyftPreference_cases (d1 d2 : ℕ) :
    mkLyftPreference d1 d2 = -1 ∨ mkLyftPreference d1 d2 = 1 ∨
      mkLyftPreference d1 d2 = 2 := by
  unfold mkLyftPreference
  split
  · exact Or.inr (Or.inl rfl)
  · split
    · exact Or.inr (Or.inr rfl)
    · exact Or.inl rfl

/-- C8: with the random draw an explicit input, `coinflip pSuccess` returns
`true` exactly when the draw from the inclusive range 0..100 is strictly less
than `pSuccess`; at `pSuccess = 100` the draw 100 yields `false`, and success
occurs on exactly `pSuccess` of the 101 possible draws. -/
theorem coinflip_draw_semantics :
    (∀ p d : ℕ, coinflip p d = true ↔ d < p) ∧
    coinflip 100 100 = false ∧
    (∀ p : ℕ, p ≤ 101 →
      ((Finset.range 101).filter (fun d => coinflip p d = true)).card = p) := by
  refine ⟨fun p d => by simp [coinflip], by decide, fun p hp => ?_⟩
  have hfe : (Finset.range 101).filter (fun d => coinflip p d = true) =
      Finset.range p := by
    ext d
    simp only [Finset.mem_filter, Finset.mem_range, coinflip, decide_eq_true_eq]
    omega
  rw [hfe, Finset.card_range]

/-- Witness for `coinflip_draw_semantics` at `pSuccess = 100` and draw 100. -/
theorem coinflip_draw_semantics_witness :
    coinflip 100 100 = false ∧
    ((Finset.range 101).filter (fun d => coinflip 100 d = true)).card = 100 :=
  ⟨coinflip_draw_semantics.2.1, coinflip_draw_semantics.2.2 100 (by norm_num)⟩

/-- C9: every flyer record produced by `generateFlyer` carries a
`lyftPreference` in {−1, 1, 2} (never the documented enum values 0, 3, 4, 5),
the given flight number, and consists of exactly the five fields of `Flyer`
(the documented `extraTime`, `pickupTime`, `isAtPickup` keys are never
produced). -/
theorem generateFlyer_record_shape (numFlyers flightNumber pB pA : ℕ)
    (draws : ℕ → ℕ) (startId : ℕ) (f : Flyer)
    (hf : f ∈ generateFlyer numFlyers flightNumber pB pA draws startId) :
    (f.lyftPreference = -1 ∨ f.lyftPreference = 1 ∨ f.lyftPreference = 2) ∧
    f.flightNumber = flightNumber ∧
    f = ⟨f.id, f.flightNumber, f.hasBaggage, f.needAssistance,
         f.lyftPreference⟩ := by
  induction numFlyers generalizing draws startId with
  | zero => simp [generateFlyer] at hf
  | succ n ih =>
      rw [generateFlyer] at hf
      rcases List.mem_cons.mp hf with h | h
      · subst h
        exact ⟨mkLyftPreference_cases (draws 2) (draws 3), rfl, rfl⟩
      · exact ih (fun k => draws (k + 4)) (startId + 1) h

/-- Witness for `generateFlyer_record_shape` on a concrete one-flyer run. -/
theorem generateFlyer_record_shape_witness :
    ((⟨0, 1560, true, true, 1⟩ : Flyer).lyftPreference = -1 ∨
     (⟨0, 1560, true, true, 1⟩ : Flyer).lyftPreference = 1 ∨
     (⟨0, 1560, true, true, 1⟩ : Flyer).lyftPreference = 2) ∧
    (⟨0, 1560, true, true, 1⟩ : Flyer).flightNumber = 1560 ∧
    (⟨0, 1560, true, true, 1⟩ : Flyer) =
      ⟨(⟨0, 1560, true, true, 1⟩ : Flyer).id,
       (⟨0, 1560, true, true, 1⟩ : Flyer).flightNumber,
       (⟨0, 1560, true, true, 1⟩ : Flyer).hasBaggage,
       (⟨0, 1560, true, true, 1⟩ : Flyer).needAssistance,
       (⟨0, 1560, true, true, 1⟩ : Flyer).lyftPreference⟩ :=
  generateFlyer_record_shape 1 1560 35 5 (fun _ => 0) 0
    ⟨0, 1560, true, true, 1⟩ (by decide)

/-- C10: the node-position interpolation of `redraw_flyer_node` and
`redraw_lyft_node` divides by `pickupTime - startTime`; whenever a node's
`pickupTime` equals its `startTime` and the current time does not exceed
`pickupTime` (and, for a lyft node, it is not yet marked picked up), the
division-by-zero branch of the guarded embedding is reached. -/
theorem redraw_interpolation_div_by_zero (t s : ℚ) (h : t ≤ s)
    (canPickUp : Bool) :
    redraw_flyer_node_center t s s = none ∧
    redraw_lyft_node_center t s s false canPickUp = none := by
  have hns : ¬(s < t) := not_lt.mpr h
  constructor
  · simp [redraw_flyer_node_center, hns, sub_self]
  · simp [redraw_lyft_node_center, hns, sub_self]

/-- Witness for `redraw_interpolation_div_by_zero` at time 0 with
`startTime = pickupTime = 0`. -/
theorem redraw_interpolation_div_by_zero_witness :
    redraw_flyer_node_center 0 0 0 = none ∧
    redraw_lyft_node_center 0 0 0 false false = none :=
  redraw_interpolation_div_by_zero 0 0 le_rfl false

/-! ### Claim theorems: the pipeline -/

/-- C5: the Departure-Time Aggregator subtracts the mobility-assistance
padding exactly when the flag is set, then subtracts the fixed safety buffer
under the subtract-buffer policy and skips that subtraction entirely under
the grace-period policy (`subtractBuffer = false`); on `W = 16:30` (990 min)
with 15-minute padding and a 10-minute buffer the recommendation is 16:05
(965 min). -/
theorem aggregate_padding_and_buffer :
    (∀ (W : ℤ) (cfg : AggregatorConfig),
       aggregate W true cfg = W - cfg.assistancePadding -
         (if cfg.subtractBuffer then cfg.bufferMinutes else 0)) ∧
    (∀ (W : ℤ) (cfg : AggregatorConfig),
       aggregate W false cfg =
         W - (if cfg.subtractBuffer then cfg.bufferMinutes else 0)) ∧
    (∀ (W : ℤ) (a : Bool) (buf pad : ℤ),
       aggregate W a ⟨false, buf, pad⟩ = W - (if a then pad else 0)) ∧
    aggregate 990 true ⟨true, 10, 15⟩ = 965 := by
  refine ⟨fun W cfg => by simp [aggregate],
          fun W cfg => by simp [aggregate],
          fun W a buf pad => by cases a <;> simp [aggregate],
          by norm_num [aggregate]⟩

/-- C1: a successful Security Wait Estimator run returns the latest (maximum)
historical record time `U` among all records satisfying
`U + mean_wait(U) + stdev_wait(U) ≤ deadline` (the stdev term read as 0 when
absent, in which case the degraded-confidence flag `marginApplied = false` is
set). -/
theorem securityEstimate_latest_qualifying (d : ℤ)
    (recs : List HistoricalWaitRecord) (res : StageResult)
    (h : securityEstimate d recs = some res) :
    ∃ r ∈ recs, r.time + r.mean + r.stdev.getD 0 ≤ d ∧
      res.instant = r.time ∧ res.marginApplied = r.stdev.isSome ∧
      ∀ x ∈ recs, x.time + x.mean + x.stdev.getD 0 ≤ d →
        x.time ≤ res.instant := by
  unfold securityEstimate at h
  obtain ⟨r, hr, hres⟩ := Option.map_eq_some'.mp h
  obtain ⟨hmem, hq⟩ := latest_mem_qual hr
  refine ⟨r, hmem, by simpa [qualSec] using hq, by rw [← hres], by rw [← hres],
    fun x hx hqx => ?_⟩
  rw [← hres]
  exact latest_is_max hr x hx (by simpa [qualSec] using hqx)

/-- Witness for `securityEstimate_latest_qualifying` on the spec's scenario:
deadline 17:45 (1065), a record at 17:20 (1040) with mean 20 and stdev 5
(1040 + 25 = 1065 qualifies), and a later non-qualifying record at 17:30
(1050) with mean 30; the estimator returns `U` = 17:20. -/
theorem securityEstimate_latest_qualifying_witness :
    ∃ r ∈ [(⟨1040, 20, some 5⟩ : HistoricalWaitRecord), ⟨1050, 30, some 5⟩],
      r.time + r.mean + r.stdev.getD 0 ≤ 1065 ∧
      (⟨1040, 20, true⟩ : StageResult).instant = r.time ∧
      (⟨1040, 20, true⟩ : StageResult).marginApplied = r.stdev.isSome ∧
      ∀ x ∈ [(⟨1040, 20, some 5⟩ : HistoricalWaitRecord), ⟨1050, 30, some 5⟩],
        x.time + x.mean + x.stdev.getD 0 ≤ 1065 →
        x.time ≤ (⟨1040, 20, true⟩ : StageResult).instant :=
  securityEstimate_latest_qualifying 1065
    [⟨1040, 20, some 5⟩, ⟨1050, 30, some 5⟩] ⟨1040, 20, true⟩ (by decide)

/-- A successful security stage resolves an instant no later than its
deadline, given nonnegative means and margins. -/
theorem securityEstimate_instant_le {d : ℤ} {recs : List HistoricalWaitRecord}
    {res : StageResult} (h : securityEstimate d recs = some res)
    (hnn : ∀ r ∈ recs, 0 ≤ r.mean ∧ 0 ≤ r.stdev.getD 0) :
    res.instant ≤ d := by
  obtain ⟨r, hr, hres⟩ := Option.map_eq_some'.mp h
  obtain ⟨hmem, hq⟩ := latest_mem_qual hr
  have hq' : r.time + r.mean + r.stdev.getD 0 ≤ d := by simpa [qualSec] using hq
  have h1 := (hnn r hmem).1
  have h2 := (hnn r hmem).2
  rw [← hres]
  show r.time ≤ d
  linarith

/-- A successful check-in stage resolves an instant no later than its
deadline, given a nonnegative duration. -/
theorem checkinEstimate_instant_le {U : ℤ} {bag : Bool}
    {recs : List CheckinRecord} {res : StageResult}
    (h : checkinEstimate U bag recs = some res)
    (hnn : ∀ r ∈ recs, 0 ≤ checkinDuration bag r) :
    res.instant ≤ U := by
  obtain ⟨r, hr, hres⟩ := Option.map_eq_some'.mp h
  obtain ⟨hmem, hq⟩ := latest_mem_qual hr
  have hq' : r.time + checkinDuration bag r ≤ U := by
    simpa [qualCheckin] using (of_decide_eq_true hq).1
  have h1 := hnn r hmem
  rw [← hres]
  show r.time ≤ U
  linarith

/-- A successful travel stage resolves an instant no later than its deadline,
given nonnegative means and margins. -/
theorem travelEstimate_instant_le {V now : ℤ}
    {recs : List HistoricalWaitRecord} {res : StageResult}
    (h : travelEstimate V now recs = some res)
    (hnn : ∀ r ∈ recs, 0 ≤ r.mean ∧ 0 ≤ r.stdev.getD 0) :
    res.instant ≤ V := by
  obtain ⟨r, hr, hres⟩ := Option.map_eq_some'.mp h
  obtain ⟨hmem, hq⟩ := latest_mem_qual hr
  have hq' : r.time + r.mean + r.stdev.getD 0 ≤ V := by
    simpa [qualTravel] using (of_decide_eq_true hq).2
  have h1 := (hnn r hmem).1
  have h2 := (hnn r hmem).2
  rw [← hres]
  show r.time ≤ V
  linarith

/-- Destructuring a successful pipeline run into its three stage results and
the deadlines that produced them. -/
theorem pipeline_ok_destruct {p : TravelerProfile} {snap : Snapshot}
    {now : ℤ} {cfg : AggregatorConfig} {rec : ScheduleRecommendation}
    (h : pipeline p snap now cfg = .ok rec) :
    ∃ rU rV rW,
      securityEstimate (securityDeadline p) snap.security = some rU ∧
      checkinEstimate rU.instant p.hasBaggage snap.checkin = some rV ∧
      travelEstimate rV.instant now snap.travel = some rW ∧
      rec = ⟨aggregate rW.instant p.needsAssistance cfg, [rU, rV, rW],
             !(rU.marginApplied && rV.marginApplied && rW.marginApplied)⟩ := by
  unfold pipeline at h
  split at h
  · exact absurd h (by simp)
  rename_i rU hU
  split at h
  · exact absurd h (by simp)
  rename_i rV hV
  split at h
  · exact absurd h (by simp)
  rename_i rW hW
  exact ⟨rU, rV, rW, hU, hV, hW, (Except.ok.inj h).symm⟩

/-- The security stage is `Infeasible` when no record qualifies. -/
theorem securityEstimate_eq_none {d : ℤ} {recs : List HistoricalWaitRecord}
    (h : ∀ r ∈ recs, qualSec d r = false) : securityEstimate d recs = none := by
  unfold securityEstimate
  rw [Option.map_eq_none']
  exact latest_eq_none.mpr h

/-- The check-in stage is `Infeasible` when no record qualifies. -/
theorem checkinEstimate_eq_none {U : ℤ} {bag : Bool}
    {recs : List CheckinRecord}
    (h : ∀ r ∈ recs, qualCheckin U bag r = false) :
    checkinEstimate U bag recs = none := by
  unfold checkinEstimate
  rw [Option.map_eq_none']
  exact latest_eq_none.mpr h

/-- The travel stage is `Infeasible` when no candidate qualifies. -/
theorem travelEstimate_eq_none {V now : ℤ}
    {recs : List HistoricalWaitRecord}
    (h : ∀ r ∈ recs, qualTravel V now r = false) :
    travelEstimate V now recs = none := by
  unfold travelEstimate
  rw [Option.map_eq_none']
  exact latest_eq_none.mpr h

/-- C4 counterexample: with every duration equal to 0 (hence ≥ 0), a record
exactly at each deadline qualifies, so every stage of this concrete pipeline
run resolves an instant *equal* to — not strictly earlier than — the deadline
it was derived from. -/
theorem pipeline_boundary_instant_not_strict :
    pipeline ⟨100, 0, 0, 0, false, false⟩
        ⟨[⟨100, 0, none⟩], [⟨100, 0, none, 0, none⟩], [⟨100, 0, none⟩]⟩ 0
        ⟨false, 0, 0⟩ =
      .ok ⟨100, [⟨100, 0, false⟩, ⟨100, 0, false⟩, ⟨100, 0, false⟩], true⟩ ∧
    securityDeadline ⟨100, 0, 0, 0, false, false⟩ = 100 ∧
    ¬((100 : ℤ) < 100) ∧ (0 : ℤ) ≤ 0 :=
  ⟨rfl, by decide, by decide, le_rfl⟩

/-- C4 (amended): given nonnegative durations, each stage's resolved instant
is earlier than *or equal to* the deadline it was derived from, and a stage
whose deadline no historical entry satisfies is `Infeasible` (`none`). -/
theorem pipeline_instants_le_deadlines :
    (∀ (p : TravelerProfile) (snap : Snapshot) (now : ℤ)
       (cfg : AggregatorConfig) (rec : ScheduleRecommendation),
       0 ≤ stageDurationX p →
       (∀ r ∈ snap.security, 0 ≤ r.mean ∧ 0 ≤ r.stdev.getD 0) →
       (∀ r ∈ snap.checkin, 0 ≤ checkinDuration p.hasBaggage r) →
       (∀ r ∈ snap.travel, 0 ≤ r.mean ∧ 0 ≤ r.stdev.getD 0) →
       pipeline p snap now cfg = .ok rec →
       ∃ rU rV rW, rec.trace = [rU, rV, rW] ∧
         securityDeadline p ≤ p.boardingTime ∧
         rU.instant ≤ securityDeadline p ∧
         rV.instant ≤ rU.instant ∧ rW.instant ≤ rV.instant) ∧
    (∀ (d : ℤ) (recs : List HistoricalWaitRecord),
       (∀ r ∈ recs, qualSec d r = false) → securityEstimate d recs = none) ∧
    (∀ (U : ℤ) (bag : Bool) (recs : List CheckinRecord),
       (∀ r ∈ recs, qualCheckin U bag r = false) →
       checkinEstimate U bag recs = none) ∧
    (∀ (V now : ℤ) (recs : List HistoricalWaitRecord),
       (∀ r ∈ recs, qualTravel V now r = false) →
       travelEstimate V now recs = none) := by
  refine ⟨?_, fun d recs h => securityEstimate_eq_none h,
    fun U bag recs h => checkinEstimate_eq_none h,
    fun V now recs h => travelEstimate_eq_none h⟩
  intro p snap now cfg rec hX hsec hchk htrv h
  obtain ⟨rU, rV, rW, hU, hV, hW, hrec⟩ := pipeline_ok_destruct h
  refine ⟨rU, rV, rW, by rw [hrec], ?_, ?_, ?_, ?_⟩
  · unfold securityDeadline
    omega
  · exact securityEstimate_instant_le hU hsec
  · exact checkinEstimate_instant_le hV hchk
  · exact travelEstimate_instant_le hW htrv

/-- Witness for `pipeline_instants_le_deadlines` on a concrete feasible
run: boarding 18:00 (1080), walks 10 + 5, no extra time, positive means. -/
theorem pipeline_instants_le_deadlines_witness :
    ∃ rU rV rW,
      (ScheduleRecommendation.mk 790
        [⟨1040, 20, true⟩, ⟨950, 5, true⟩, ⟨800, 60, true⟩] false).trace =
        [rU, rV, rW] ∧
      securityDeadline ⟨1080, 10, 5, 0, false, false⟩ ≤
        (⟨1080, 10, 5, 0, false, false⟩ : TravelerProfile).boardingTime ∧
      rU.instant ≤ securityDeadline ⟨1080, 10, 5, 0, false, false⟩ ∧
      rV.instant ≤ rU.instant ∧ rW.instant ≤ rV.instant :=
  pipeline_instants_le_deadlines.1 ⟨1080, 10, 5, 0, false, false⟩
    ⟨[⟨1040, 20, some 5⟩], [⟨950, 5, some 1, 0, none⟩], [⟨800, 60, some 10⟩]⟩
    0 ⟨true, 10, 0⟩
    ⟨790, [⟨1040, 20, true⟩, ⟨950, 5, true⟩, ⟨800, 60, true⟩], false⟩
    (by decide) (by decide) (by decide) (by decide) rfl

/-- C7: when the boarding time minus the fixed durations yields a
security-completion deadline earlier than every (hence the earliest)
historical security-wait record for the day, the pipeline returns the
structured `Infeasible` error naming the security stage — never a time — and
no later stage executes. -/
theorem pipeline_infeasible_before_earliest (p : TravelerProfile)
    (snap : Snapshot) (now : ℤ) (cfg : AggregatorConfig)
    (hnn : ∀ r ∈ snap.security, 0 ≤ r.mean ∧ 0 ≤ r.stdev.getD 0)
    (hearly : ∀ r ∈ snap.security, securityDeadline p < r.time) :
    pipeline p snap now cfg = .error .security := by
  have hnone : securityEstimate (securityDeadline p) snap.security = none := by
    refine securityEstimate_eq_none (fun r hr => ?_)
    have h1 := (hnn r hr).1
    have h2 := (hnn r hr).2
    have h3 := hearly r hr
    simp only [qualSec, decide_eq_false_iff_not]
    omega
  unfold pipeline
  rw [hnone]

/-- Witness for `pipeline_infeasible_before_earliest`: boarding 1000, fixed
durations 15, so deadline 985, while the only security record is at 990. -/
theorem pipeline_infeasible_before_earliest_witness :
    pipeline ⟨1000, 10, 5, 0, false, false⟩
      ⟨[⟨990, 5, none⟩], [], []⟩ 0 ⟨true, 10, 15⟩ = .error .security :=
  pipeline_infeasible_before_earliest ⟨1000, 10, 5, 0, false, false⟩
    ⟨[⟨990, 5, none⟩], [], []⟩ 0 ⟨true, 10, 15⟩ (by decide) (by decide)

/-- C3: the Travel-Time Estimator returns the latest departure time `W` with
`W + travel_time(W) + stdev(W) ≤ V` among candidates not before `now`, is
`Infeasible` when no candidate (in particular immediate departure) satisfies
`V`, and inside the pipeline its deadline is `V`, the output of the check-in
stage — not the security-entry deadline `U`. -/
theorem travelEstimate_latest_against_V :
    (∀ (V now : ℤ) (recs : List HistoricalWaitRecord) (res : StageResult),
       travelEstimate V now recs = some res →
       ∃ r ∈ recs, now ≤ r.time ∧ r.time + r.mean + r.stdev.getD 0 ≤ V ∧
         res.instant = r.time ∧
         ∀ x ∈ recs, now ≤ x.time → x.time + x.mean + x.stdev.getD 0 ≤ V →
           x.time ≤ res.instant) ∧
    (∀ (V now : ℤ) (recs : List HistoricalWaitRecord),
       (∀ r ∈ recs, now ≤ r.time → ¬(r.time + r.mean + r.stdev.getD 0 ≤ V)) →
       travelEstimate V now recs = none) ∧
    (∀ (p : TravelerProfile) (snap : Snapshot) (now : ℤ)
       (cfg : AggregatorConfig) (rec : ScheduleRecommendation),
       pipeline p snap now cfg = .ok rec →
       ∃ rU rV rW, rec.trace = [rU, rV, rW] ∧
         checkinEstimate rU.instant p.hasBaggage snap.checkin = some rV ∧
         travelEstimate rV.instant now snap.travel = some rW) := by
  refine ⟨?_, ?_, ?_⟩
  · intro V now recs res h
    obtain ⟨r, hr, hres⟩ := Option.map_eq_some'.mp h
    obtain ⟨hmem, hq⟩ := latest_mem_qual hr
    obtain ⟨hq1, hq2⟩ : now ≤ r.time ∧ r.time + r.mean + r.stdev.getD 0 ≤ V :=
      by simpa [qualTravel] using hq
    refine ⟨r, hmem, hq1, hq2, by rw [← hres], fun x hx hx1 hx2 => ?_⟩
    rw [← hres]
    exact latest_is_max hr x hx (by simp [qualTravel, hx1, hx2])
  · intro V now recs h
    refine travelEstimate_eq_none (fun r hr => ?_)
    simp only [qualTravel, decide_eq_false_iff_not, not_and]
    exact h r hr
  · intro p snap now cfg rec h
    obtain ⟨rU, rV, rW, hU, hV, hW, hrec⟩ := pipeline_ok_destruct h
    exact ⟨rU, rV, rW, by rw [hrec], hV, hW⟩

/-- Witness for `travelEstimate_latest_against_V`: a deadline `V` = 900 run
with a qualifying candidate at 800 and a non-qualifying one at 850, an
infeasible run, and a concrete full pipeline. -/
theorem travelEstimate_latest_against_V_witness :
    (∃ r ∈ [(⟨800, 60, some 10⟩ : HistoricalWaitRecord), ⟨850, 60, some 10⟩],
       (0 : ℤ) ≤ r.time ∧ r.time + r.mean + r.stdev.getD 0 ≤ 900 ∧
       (⟨800, 60, true⟩ : StageResult).instant = r.time ∧
       ∀ x ∈ [(⟨800, 60, some 10⟩ : HistoricalWaitRecord), ⟨850, 60, some 10⟩],
         (0 : ℤ) ≤ x.time → x.time + x.mean + x.stdev.getD 0 ≤ 900 →
         x.time ≤ (⟨800, 60, true⟩ : StageResult).instant) ∧
    travelEstimate 0 0 [⟨10, 5, none⟩] = none ∧
    (∃ rU rV rW,
       (ScheduleRecommendation.mk 790
         [⟨1040, 20, true⟩, ⟨950, 5, true⟩, ⟨800, 60, true⟩] false).trace =
         [rU, rV, rW] ∧
       checkinEstimate rU.instant
         (⟨1080, 10, 5, 0, false, false⟩ : TravelerProfile).hasBaggage
         [⟨950, 5, some 1, 0, none⟩] = some rV ∧
       travelEstimate rV.instant 0 [⟨800, 60, some 10⟩] = some rW) :=
  ⟨travelEstimate_latest_against_V.1 900 0
      [⟨800, 60, some 10⟩, ⟨850, 60, some 10⟩] ⟨800, 60, true⟩ (by decide),
   travelEstimate_latest_against_V.2.1 0 0 [⟨10, 5, none⟩] (by decide),
   travelEstimate_latest_against_V.2.2 ⟨1080, 10, 5, 0, false, false⟩
     ⟨[⟨1040, 20, some 5⟩], [⟨950, 5, some 1, 0, none⟩], [⟨800, 60, some 10⟩]⟩
     0 ⟨true, 10, 0⟩
     ⟨790, [⟨1040, 20, true⟩, ⟨950, 5, true⟩, ⟨800, 60, true⟩], false⟩ rfl⟩

/-- Relaxing the security deadline preserves qualification. -/
theorem qualSec_mono {d d' : ℤ} {r : HistoricalWaitRecord} (hdd : d ≤ d')
    (h : qualSec d r = true) : qualSec d' r = true := by
  simp only [qualSec, decide_eq_true_eq] at h ⊢
  omega

/-- Relaxing the check-in deadline preserves qualification. -/
theorem qualCheckin_mono {U U' : ℤ} {bag : Bool} {r : CheckinRecord}
    (hUU : U ≤ U') (h : qualCheckin U bag r = true) :
    qualCheckin U' bag r = true := by
  simp only [qualCheckin, decide_eq_true_eq] at h ⊢
  obtain ⟨h1, h2⟩ := h
  refine ⟨by omega, ?_⟩
  nlinarith

/-- Relaxing the airport-arrival deadline preserves qualification. -/
theorem qualTravel_mono {V V' now : ℤ} {r : HistoricalWaitRecord}
    (hVV : V ≤ V') (h : qualTravel V now r = true) :
    qualTravel V' now r = true := by
  simp only [qualTravel, decide_eq_true_eq] at h ⊢
  omega

/-- The security stage is monotone in its deadline. -/
theorem securityEstimate_mono {d d' : ℤ} {recs : List HistoricalWaitRecord}
    {res res' : StageResult} (hdd : d ≤ d')
    (h : securityEstimate d recs = some res)
    (h' : securityEstimate d' recs = some res') :
    res.instant ≤ res'.instant := by
  obtain ⟨r, hr, hres⟩ := Option.map_eq_some'.mp h
  obtain ⟨r', hr', hres'⟩ := Option.map_eq_some'.mp h'
  rw [← hres, ← hres']
  show r.time ≤ r'.time
  exact latest_mono (fun x _ hq => qualSec_mono hdd hq) hr hr'

/-- The check-in stage is monotone in its deadline. -/
theorem checkinEstimate_mono {U U' : ℤ} {bag : Bool}
    {recs : List CheckinRecord} {res res' : StageResult} (hUU : U ≤ U')
    (h : checkinEstimate U bag recs = some res)
    (h' : checkinEstimate U' bag recs = some res') :
    res.instant ≤ res'.instant := by
  obtain ⟨r, hr, hres⟩ := Option.map_eq_some'.mp h
  obtain ⟨r', hr', hres'⟩ := Option.map_eq_some'.mp h'
  rw [← hres, ← hres']
  show r.time ≤ r'.time
  exact latest_mono (fun x _ hq => qualCheckin_mono hUU hq) hr hr'

/-- The travel stage is monotone in its deadline. -/
theorem travelEstimate_mono {V V' now : ℤ} {recs : List HistoricalWaitRecord}
    {res res' : StageResult} (hVV : V ≤ V')
    (h : travelEstimate V now recs = some res)
    (h' : travelEstimate V' now recs = some res') :
    res.instant ≤ res'.instant := by
  obtain ⟨r, hr, hres⟩ := Option.map_eq_some'.mp h
  obtain ⟨r', hr', hres'⟩ := Option.map_eq_some'.mp h'
  rw [← hres, ← hres']
  show r.time ≤ r'.time
  exact latest_mono (fun x _ hq => qualTravel_mono hVV hq) hr hr'

/-- C6: over the same historical snapshot, of two profiles identical except
for the desired extra time at the airport, the one with the larger extra time
receives a final recommended departure that is earlier than or equal to the
other's. -/
theorem pipeline_monotone_in_extraTime (p : TravelerProfile) (snap : Snapshot)
    (now : ℤ) (cfg : AggregatorConfig) (e e' : ℤ) (he : e ≤ e')
    (rec rec' : ScheduleRecommendation)
    (h : pipeline { p with extraTime := e } snap now cfg = .ok rec)
    (h' : pipeline { p with extraTime := e' } snap now cfg = .ok rec') :
    rec'.departure ≤ rec.departure := by
  obtain ⟨rU, rV, rW, hU, hV, hW, hrec⟩ := pipeline_ok_destruct h
  obtain ⟨rU', rV', rW', hU', hV', hW', hrec'⟩ := pipeline_ok_destruct h'
  have hT : securityDeadline { p with extraTime := e' } ≤
      securityDeadline { p with extraTime := e } := by
    simp only [securityDeadline, stageDurationX]
    omega
  have h1 : rU'.instant ≤ rU.instant := securityEstimate_mono hT hU' hU
  have h2 : rV'.instant ≤ rV.instant := checkinEstimate_mono h1 hV' hV
  have h3 : rW'.instant ≤ rW.instant := travelEstimate_mono h2 hW' hW
  rw [hrec, hrec']
  dsimp only [aggregate]
  exact sub_le_sub_right (sub_le_sub_right h3 _) _

/-- Witness for `pipeline_monotone_in_extraTime`: extra times 0 and 10 over
the same snapshot; both runs succeed and the larger-extra-time run departs no
later (here both recommend 790). -/
theorem pipeline_monotone_in_extraTime_witness :
    (ScheduleRecommendation.mk 790
      [⟨1000, 20, true⟩, ⟨950, 5, true⟩, ⟨800, 60, true⟩] false).departure ≤
    (ScheduleRecommendation.mk 790
      [⟨1040, 20, true⟩, ⟨950, 5, true⟩, ⟨800, 60, true⟩] false).departure :=
  pipeline_monotone_in_extraTime ⟨1080, 10, 5, 0, false, false⟩
    ⟨[⟨1000, 20, some 5⟩, ⟨1040, 20, some 5⟩], [⟨950, 5, some 1, 0, none⟩],
     [⟨800, 60, some 10⟩]⟩
    0 ⟨true, 10, 0⟩ 0 10 (by decide)
    ⟨790, [⟨1040, 20, true⟩, ⟨950, 5, true⟩, ⟨800, 60, true⟩], false⟩
    ⟨790, [⟨1000, 20, true⟩, ⟨950, 5, true⟩, ⟨800, 60, true⟩], false⟩
    rfl rfl

/-- The with-baggage qualification test, with both stdevs present, unfolded
to its arithmetic content. -/
theorem qualCheckin_bag_eq {U : ℤ} {r : CheckinRecord} {s1 s2 : ℤ}
    (h1 : r.checkinStdev = some s1) (h2 : r.bagStdev = some s2) :
    (qualCheckin U true r = true ↔
      (r.time + (r.checkinMean + r.bagMean) ≤ U ∧
       s1 ^ 2 + s2 ^ 2 ≤ (U - r.time - (r.checkinMean + r.bagMean)) ^ 2)) := by
  simp [qualCheckin, checkinDuration, checkinVariance, h1, h2]

/-- C2: with the has-checked-baggage flag set, the Check-in/Bag-Drop
Estimator uses duration = check-in mean + bag-drop mean and combines the two
standard deviations as `√(stdev_checkin² + stdev_bagdrop²)` — its
qualification test is exactly the real-valued inequality with that square
root, which differs from the direct sum `stdev_checkin + stdev_bagdrop`
(a record passing the estimator's test fails the direct-sum test) — while
without baggage it uses the check-in data alone. -/
theorem checkin_combines_stdevs :
    (∀ (U : ℤ) (r : CheckinRecord) (s1 s2 : ℤ),
       r.checkinStdev = some s1 → r.bagStdev = some s2 →
       (qualCheckin U true r = true ↔
         (r.time : ℝ) + ((r.checkinMean : ℝ) + (r.bagMean : ℝ)) +
           Real.sqrt ((s1 : ℝ) ^ 2 + (s2 : ℝ) ^ 2) ≤ (U : ℝ))) ∧
    (∀ r : CheckinRecord, checkinDuration true r = r.checkinMean + r.bagMean ∧
       checkinDuration false r = r.checkinMean ∧
       checkinVariance false r = (r.checkinStdev.getD 0) ^ 2 ∧
       checkinMarginFull false r = r.checkinStdev.isSome) ∧
    (∃ (U : ℤ) (r : CheckinRecord) (s1 s2 : ℤ),
       r.checkinStdev = some s1 ∧ r.bagStdev = some s2 ∧ 0 ≤ s1 ∧ 0 ≤ s2 ∧
       qualCheckin U true r = true ∧
       ¬(r.time + (r.checkinMean + r.bagMean) + (s1 + s2) ≤ U)) := by
  refine ⟨?_, fun r => ⟨rfl, rfl, rfl, rfl⟩,
    ⟨5, ⟨0, 0, some 3, 0, some 4⟩, 3, 4, rfl, rfl, by decide, by decide,
      by decide, by decide⟩⟩
  intro U r s1 s2 h1 h2
  rw [qualCheckin_bag_eq h1 h2]
  have hcast : ((r.time : ℝ) + ((r.checkinMean : ℝ) + (r.bagMean : ℝ)) +
      Real.sqrt ((s1 : ℝ) ^ 2 + (s2 : ℝ) ^ 2) ≤ (U : ℝ)) ↔
      Real.sqrt ((s1 : ℝ) ^ 2 + (s2 : ℝ) ^ 2) ≤
        (U : ℝ) - (r.time : ℝ) - ((r.checkinMean : ℝ) + (r.bagMean : ℝ)) := by
    constructor <;> intro hh <;> linarith
  rw [hcast, Real.sqrt_le_iff]
  constructor
  · rintro ⟨ha, hv⟩
    constructor
    · have hc : ((r.time + (r.checkinMean + r.bagMean) : ℤ) : ℝ) ≤ (U : ℝ) :=
        by exact_mod_cast ha
      push_cast at hc
      linarith
    · have hc : ((s1 ^ 2 + s2 ^ 2 : ℤ) : ℝ) ≤
          (((U - r.time - (r.checkinMean + r.bagMean)) : ℤ) : ℝ) ^ 2 := by
        exact_mod_cast hv
      push_cast at hc
      linarith
  · rintro ⟨h0, hv⟩
    constructor
    · have hc : ((r.time + (r.checkinMean + r.bagMean) : ℤ) : ℝ) ≤ (U : ℝ) := by
        push_cast
        linarith
      exact_mod_cast hc
    · have hc : ((s1 ^ 2 + s2 ^ 2 : ℤ) : ℝ) ≤
          (((U - r.time - (r.checkinMean + r.bagMean)) : ℤ) : ℝ) ^ 2 := by
        push_cast
        linarith
      exact_mod_cast hc

/-- Witness for `checkin_combines_stdevs` at a record with stdevs 3 and 4:
the estimator's test coincides with the `√(3² + 4²) = 5` margin test. -/
theorem checkin_combines_stdevs_witness :
    qualCheckin 5 true ⟨0, 0, some 3, 0, some 4⟩ = true ↔
      ((⟨0, 0, some 3, 0, some 4⟩ : CheckinRecord).time : ℝ) +
        (((⟨0, 0, some 3, 0, some 4⟩ : CheckinRecord).checkinMean : ℝ) +
         ((⟨0, 0, some 3, 0, some 4⟩ : CheckinRecord).bagMean : ℝ)) +
        Real.sqrt (((3 : ℤ) : ℝ) ^ 2 + ((4 : ℤ) : ℝ) ^ 2) ≤ ((5 : ℤ) : ℝ) :=
  checkin_combines_stdevs.1 5 ⟨0, 0, some 3, 0, some 4⟩ 3 4 rfl rfl
